import Mathlib

/-!
Verification of `src/server.py` (a static-file HTTP server, "variant B"):
a shallow embedding of its request handler and of its start routine
`run_server`, with theorems checking the specified behavior.
-/

/-! ## Request handler: `AutoReloadHandler` -/

/-- Model of `BaseHTTPRequestHandler.send_header`: queue one header
key/value pair at the end of the pending header buffer. -/
def send_header (buf : List (String × String)) (k v : String) :
    List (String × String) :=
  buf ++ [(k, v)]

/-- Model of `AutoReloadHandler.end_headers` (src/server.py lines 8-12):
queue the three no-cache headers via `send_header`, then
`super().end_headers()` finalizes and sends the buffered block. The
returned list is the finalized header block. -/
def AutoReloadHandler.end_headers (buf : List (String × String)) :
    List (String × String) :=
  send_header
    (send_header
      (send_header buf "Cache-Control" "no-store, no-cache, must-revalidate")
      "Pragma" "no-cache")
    "Expires" "0"

/-- A response emitted through the handler: any status code together with
whatever headers the base handler queued for it, finalized through the
overridden `end_headers` hook (the generic finalize-headers extension
point, so it covers 2xx, 3xx, 4xx and 5xx responses alike). -/
def AutoReloadHandler.respond (status : Nat) (queued : List (String × String)) :
    Nat × List (String × String) :=
  (status, AutoReloadHandler.end_headers queued)

/-- Model of the base class path resolution: `SimpleHTTPRequestHandler.do_GET`
serves the resource named by `self.path`; the value returned is the path of
the resource it resolves under the content root. -/
def SimpleHTTPRequestHandler.do_GET (path : String) : String := path

/-- Model of `AutoReloadHandler.do_GET` (src/server.py lines 14-17): if
`self.path` is exactly `/`, set it to `/index.html`, then delegate to
`SimpleHTTPRequestHandler.do_GET`. -/
def AutoReloadHandler.do_GET (path : String) : String :=
  SimpleHTTPRequestHandler.do_GET (if path = "/" then "/index.html" else path)

/-- HTTP request methods the underlying default handler dispatches on. -/
inductive HttpMethod where
  | GET
  | HEAD
  deriving DecidableEq

/-- Resource path the handler resolves for a request, by method.
`AutoReloadHandler` (src/server.py line 7) overrides only `do_GET` and
`end_headers`; `do_HEAD` is inherited from `SimpleHTTPRequestHandler`,
which resolves `self.path` unchanged. -/
def AutoReloadHandler.effectivePath : HttpMethod → String → String
  | HttpMethod.GET, p => AutoReloadHandler.do_GET p
  | HttpMethod.HEAD, p => p

/-! ## Start routine: `run_server` -/

/-- What the path `<script-dir>/dry-field-064a/public` is on the host
filesystem: absent, an existing non-directory (e.g. a regular file), or an
existing directory. -/
inductive PathKind where
  | absent
  | file
  | dir
  deriving DecidableEq

/-- Model of `os.path.exists`: true for any existing path, directory or
not. -/
def os_path_exists : PathKind → Bool
  | PathKind.absent => false
  | PathKind.file => true
  | PathKind.dir => true

/-- Model of `os.path.join a b c` for an absolute `a` and relative `b`,
`c`: concatenation with the path separator. -/
def os_path_join (a b c : String) : String :=
  a ++ "/" ++ b ++ "/" ++ c

/-- The content root computed at src/server.py lines 24-25:
`os.path.join(current_dir, 'dry-field-064a', 'public')`. -/
def publicDirOf (scriptDir : String) : String :=
  os_path_join scriptDir "dry-field-064a" "public"

/-- The fixed port (src/server.py line 20). -/
def PORT : Nat := 3000

/-- The string `f'http://localhost:{PORT}'` passed to `webbrowser.open`
(src/server.py line 44). -/
def browserUrl : String := "http://localhost:" ++ toString PORT

/-- The dedicated message printed when the bind fails with errno 48
(src/server.py line 48). -/
def portInUseMsg : String :=
  "Error: Port " ++ toString PORT ++
    " is already in use. Please try a different port or kill the existing process."

/-- Observable side effects of one execution of `run_server`, in order. -/
inductive Event where
  | print (line : String)
  | chdir (dir : String)
  | bind (host : String) (port : Nat)
  | openBrowser (url : String)
  | serveForever
  deriving DecidableEq

/-- How the execution of `run_server` ends. -/
inductive Outcome where
  | exited (code : Nat)
  | runningForever
  | uncaughtBaseExc
  deriving DecidableEq

/-- The trace of effects of one execution, with its ending. -/
structure RunResult where
  events : List Event
  outcome : Outcome
  deriving DecidableEq

/-- The host environment a run of `run_server` interacts with:
`scriptDir` is `os.path.dirname(os.path.abspath(__file__))`, `cwd0` the
working directory at entry (`os.getcwd()`), `publicDirKind` what the
content root path is on disk, `chdirErrMsg` the `str(e)` of the exception
`os.chdir` raises when the target exists but is not a directory,
`bindResult` the outcome of `socketserver.TCPServer(("", PORT), Handler)`
(`none` for success, `some (errno, str e)` for an `OSError`; `errno` may
be absent), `browserOk` the boolean `webbrowser.open` returns, and
`serveInterrupted` whether `serve_forever` is eventually torn down by a
`BaseException` (e.g. KeyboardInterrupt) instead of blocking forever. -/
structure Env where
  scriptDir : String
  cwd0 : String
  publicDirKind : PathKind
  chdirErrMsg : String
  bindResult : Option (Option Int × String)
  browserOk : Bool
  serveInterrupted : Bool
  deriving DecidableEq

/-- Model of `run_server` (src/server.py lines 19-60). Control flow:
the existence pre-check exits before the `try`; inside the outer `try`,
a failing `os.chdir(public_dir)` raises an `OSError`, caught by
`except Exception` (generic message, `os.chdir(original_dir)`,
`sys.exit(1)`); a failing `TCPServer` call raises an `OSError`, caught by
the inner `except OSError` (dedicated message iff `e.errno == 48`, else
generic, then `os.chdir(original_dir)`, `sys.exit(1)`). `sys.exit(1)`
raises `SystemExit`, which `except Exception` does not catch, so the
`finally` block then runs `os.chdir(original_dir)` a second time before
the process exits with status 1. On the happy path `serve_forever` never
returns; if it is torn down by a `BaseException`, the `finally` restores
once and the exception propagates uncaught. The boolean `webbrowser.open`
returns is discarded. -/
def run_server (env : Env) : RunResult :=
  let public_dir := publicDirOf env.scriptDir
  if os_path_exists env.publicDirKind = false then
    { events := [Event.print ("Error: Directory not found: " ++ public_dir)],
      outcome := Outcome.exited 1 }
  else
    let original_dir := env.cwd0
    if env.publicDirKind = PathKind.dir then
      let afterChdir : List Event :=
        [Event.chdir public_dir,
         Event.print ("Serving from: " ++ public_dir),
         Event.bind "" PORT]
      match env.bindResult with
      | some (er, msg) =>
          let line := if er = some (48 : Int) then portInUseMsg else "Error: " ++ msg
          { events := afterChdir ++
              [Event.print line, Event.chdir original_dir, Event.chdir original_dir],
            outcome := Outcome.exited 1 }
      | none =>
          let upToBrowser := afterChdir ++
            [Event.print ("Serving at " ++ browserUrl), Event.openBrowser browserUrl]
          if env.serveInterrupted then
            { events := upToBrowser ++ [Event.serveForever, Event.chdir original_dir],
              outcome := Outcome.uncaughtBaseExc }
          else
            { events := upToBrowser ++ [Event.serveForever],
              outcome := Outcome.runningForever }
    else
      { events := [Event.print ("Error: " ++ env.chdirErrMsg),
                   Event.chdir original_dir, Event.chdir original_dir],
        outcome := Outcome.exited 1 }

/-- The working directory after a trace of events, starting from `c`. -/
def finalCwd (c : String) : List Event → String
  | [] => c
  | Event.chdir d :: rest => finalCwd d rest
  | _ :: rest => finalCwd c rest

/-- How many times a trace changes directory to `d`. -/
def chdirCalls (d : String) : List Event → Nat
  | [] => 0
  | Event.chdir e :: rest => (if e = d then 1 else 0) + chdirCalls d rest
  | _ :: rest => chdirCalls d rest

/-! ## Claims about the handler -/

/-- C1: every HTTP response produced by the handler — whatever its status
code and whatever headers the base handler queued, so success and error
responses (including 404) alike — carries `Cache-Control: no-store,
no-cache, must-revalidate`, `Pragma: no-cache` and `Expires: 0` in the
finalized header block. -/
theorem C1_no_cache_headers_every_response (status : Nat)
    (queued : List (String × String)) :
    ("Cache-Control", "no-store, no-cache, must-revalidate")
        ∈ (AutoReloadHandler.respond status queued).2 ∧
    ("Pragma", "no-cache") ∈ (AutoReloadHandler.respond status queued).2 ∧
    ("Expires", "0") ∈ (AutoReloadHandler.respond status queued).2 := by
  simp [AutoReloadHandler.respond, AutoReloadHandler.end_headers, send_header]

/-- C2: a GET for the exact path `/` is rewritten to `/index.html` before
delegation, so the base handler serves `index.html` at the content root;
every other GET path is delegated to the base handler unchanged. -/
theorem C2_root_rewritten_to_index (p : String) (h : p ≠ "/") :
    AutoReloadHandler.do_GET "/" = SimpleHTTPRequestHandler.do_GET "/index.html" ∧
    AutoReloadHandler.do_GET p = SimpleHTTPRequestHandler.do_GET p := by
  constructor
  · rfl
  · simp [AutoReloadHandler.do_GET, h]

/-- Witness for C2 at the concrete path `/style.css`. -/
theorem C2_root_rewritten_to_index_witness :
    "/style.css" ≠ "/" ∧
    (AutoReloadHandler.do_GET "/" = SimpleHTTPRequestHandler.do_GET "/index.html" ∧
     AutoReloadHandler.do_GET "/style.css" = SimpleHTTPRequestHandler.do_GET "/style.css") :=
  ⟨by decide, C2_root_rewritten_to_index "/style.css" (by decide)⟩

/-- C10: only `do_GET` is overridden, so the default-document rewrite
applies to GET only: a HEAD request for the exact path `/` is resolved for
the literal path `/`, not for `/index.html`, while a GET for `/` is
resolved for `/index.html`. -/
theorem C10_head_not_rewritten :
    AutoReloadHandler.effectivePath HttpMethod.HEAD "/" = "/" ∧
    (∀ p : String, AutoReloadHandler.effectivePath HttpMethod.HEAD p = p) ∧
    AutoReloadHandler.effectivePath HttpMethod.GET "/" = "/index.html" := by
  refine ⟨rfl, fun p => rfl, rfl⟩

/-! ## Helper lemmas -/

/-- No "Serving from:" line equals the dedicated port-in-use message. -/
theorem servingFrom_ne_portInUseMsg (s : String) :
    "Serving from: " ++ s ≠ portInUseMsg := by
  intro h
  have h2 := congrArg String.data h
  rw [String.data_append] at h2
  have h3 : (some 'S' : Option Char) = some 'E' := congrArg List.head? h2
  exact absurd h3 (by decide)

/-- String append is left-cancellative. -/
theorem string_append_left_cancel (a b c : String) (h : a ++ b = a ++ c) :
    b = c := by
  have h2 := congrArg String.data h
  rw [String.data_append, String.data_append] at h2
  exact String.ext (List.append_cancel_left h2)

/-! ## Claims about `run_server` -/

/-- C5: when the resolved content root does not exist, `run_server` prints
an error line that contains the missing path, the process exits with
status 1, and no bind is ever attempted. -/
theorem C5_missing_root (env : Env) (h : env.publicDirKind = PathKind.absent) :
    (run_server env).events =
      [Event.print ("Error: Directory not found: " ++ publicDirOf env.scriptDir)] ∧
    (∃ pre : String, "Error: Directory not found: " ++ publicDirOf env.scriptDir
        = pre ++ publicDirOf env.scriptDir) ∧
    (run_server env).outcome = Outcome.exited 1 ∧
    (∀ hst : String, ∀ p : Nat, Event.bind hst p ∉ (run_server env).events) := by
  refine ⟨?_, ⟨"Error: Directory not found: ", rfl⟩, ?_, ?_⟩ <;>
    simp [run_server, h, os_path_exists]

/-- Concrete environment: the content root path is absent. -/
def envAbsent : Env :=
  { scriptDir := "/srv/app", cwd0 := "/home/user",
    publicDirKind := PathKind.absent, chdirErrMsg := "",
    bindResult := none, browserOk := true, serveInterrupted := false }

/-- Witness for C5 at `envAbsent`. -/
theorem C5_missing_root_witness :
    envAbsent.publicDirKind = PathKind.absent ∧
    ((run_server envAbsent).events =
      [Event.print ("Error: Directory not found: " ++ publicDirOf envAbsent.scriptDir)] ∧
     (∃ pre : String, "Error: Directory not found: " ++ publicDirOf envAbsent.scriptDir
        = pre ++ publicDirOf envAbsent.scriptDir) ∧
     (run_server envAbsent).outcome = Outcome.exited 1 ∧
     (∀ hst : String, ∀ p : Nat, Event.bind hst p ∉ (run_server envAbsent).events)) :=
  ⟨rfl, C5_missing_root envAbsent rfl⟩

/-- C4: when the bind fails with the address-in-use error code (errno 48,
the code the source inspects for), `run_server` prints the dedicated
port-in-use message, the working directory ends restored to its
pre-launch value, and the process exits with status 1. -/
theorem C4_port_in_use (env : Env) (msg : String)
    (hk : env.publicDirKind = PathKind.dir)
    (hb : env.bindResult = some (some 48, msg)) :
    Event.print portInUseMsg ∈ (run_server env).events ∧
    finalCwd env.cwd0 (run_server env).events = env.cwd0 ∧
    (run_server env).outcome = Outcome.exited 1 := by
  refine ⟨?_, ?_, ?_⟩ <;> simp [run_server, hk, hb, os_path_exists, finalCwd]

/-- Concrete environment: bind fails with errno 48. -/
def envInUse48 : Env :=
  { scriptDir := "/srv/app", cwd0 := "/home/user",
    publicDirKind := PathKind.dir, chdirErrMsg := "",
    bindResult := some (some 48, "[Errno 48] Address already in use"),
    browserOk := true, serveInterrupted := false }

/-- Witness for C4 at `envInUse48`. -/
theorem C4_port_in_use_witness :
    envInUse48.publicDirKind = PathKind.dir ∧
    envInUse48.bindResult = some (some 48, "[Errno 48] Address already in use") ∧
    (Event.print portInUseMsg ∈ (run_server envInUse48).events ∧
     finalCwd envInUse48.cwd0 (run_server envInUse48).events = envInUse48.cwd0 ∧
     (run_server envInUse48).outcome = Outcome.exited 1) :=
  ⟨rfl, rfl, C4_port_in_use envInUse48 "[Errno 48] Address already in use" rfl rfl⟩

/-- C8: the address-in-use detection is a comparison of the caught
`OSError`'s errno with the literal 48: any bind failure whose errno
differs (e.g. Linux's EADDRINUSE value 98) prints the generic
`Error: <e>` line instead of the dedicated port-in-use message, still
restores the working directory, and still exits with status 1. -/
theorem C8_errno_literal_48 (env : Env) (er : Option Int) (msg : String)
    (hk : env.publicDirKind = PathKind.dir)
    (hb : env.bindResult = some (er, msg))
    (hne : er ≠ some 48)
    (hm : "Error: " ++ msg ≠ portInUseMsg) :
    Event.print ("Error: " ++ msg) ∈ (run_server env).events ∧
    Event.print portInUseMsg ∉ (run_server env).events ∧
    finalCwd env.cwd0 (run_server env).events = env.cwd0 ∧
    (run_server env).outcome = Outcome.exited 1 := by
  have he : (run_server env).events =
      [Event.chdir (publicDirOf env.scriptDir),
       Event.print ("Serving from: " ++ publicDirOf env.scriptDir),
       Event.bind "" PORT,
       Event.print ("Error: " ++ msg),
       Event.chdir env.cwd0, Event.chdir env.cwd0] := by
    simp [run_server, hk, hb, hne, os_path_exists]
  have ho : (run_server env).outcome = Outcome.exited 1 := by
    simp [run_server, hk, hb, os_path_exists]
  refine ⟨?_, ?_, ?_, ho⟩
  · rw [he]; simp
  · rw [he]
    intro hmem
    simp only [List.mem_cons, List.not_mem_nil, or_false] at hmem
    rcases hmem with h1 | h1 | h1 | h1 | h1 | h1 <;>
      first
        | exact Event.noConfusion h1
        | exact servingFrom_ne_portInUseMsg (publicDirOf env.scriptDir)
            (Event.print.inj h1).symm
        | exact hm (Event.print.inj h1).symm
  · rw [he]; simp [finalCwd]

/-- Concrete environment: bind fails with Linux's EADDRINUSE errno 98. -/
def envInUse98 : Env :=
  { scriptDir := "/srv/app", cwd0 := "/home/user",
    publicDirKind := PathKind.dir, chdirErrMsg := "",
    bindResult := some (some 98, "[Errno 98] Address already in use"),
    browserOk := true, serveInterrupted := false }

/-- Witness for C8 at `envInUse98`. -/
theorem C8_errno_literal_48_witness :
    envInUse98.publicDirKind = PathKind.dir ∧
    envInUse98.bindResult = some (some 98, "[Errno 98] Address already in use") ∧
    (some 98 : Option Int) ≠ some 48 ∧
    "Error: " ++ "[Errno 98] Address already in use" ≠ portInUseMsg ∧
    (Event.print ("Error: " ++ "[Errno 98] Address already in use")
        ∈ (run_server envInUse98).events ∧
     Event.print portInUseMsg ∉ (run_server envInUse98).events ∧
     finalCwd envInUse98.cwd0 (run_server envInUse98).events = envInUse98.cwd0 ∧
     (run_server envInUse98).outcome = Outcome.exited 1) :=
  ⟨rfl, rfl, by decide, by decide,
   C8_errno_literal_48 envInUse98 (some 98) "[Errno 98] Address already in use"
     rfl rfl (by decide) (by decide)⟩

/-- C9: the content-root pre-check is `os.path.exists`, which also accepts
a non-directory: when the path exists as a regular file the check passes
(the missing-directory message is not printed and is absent from the
trace), the subsequent `os.chdir` failure is handled by the generic error
branch (`Error: <e>` line), the working directory ends restored, the
process exits with status 1, and no bind is attempted. -/
theorem C9_exists_check_accepts_file (env : Env)
    (hk : env.publicDirKind = PathKind.file)
    (hm : env.chdirErrMsg ≠ "Directory not found: " ++ publicDirOf env.scriptDir) :
    os_path_exists env.publicDirKind = true ∧
    (run_server env).events =
      [Event.print ("Error: " ++ env.chdirErrMsg),
       Event.chdir env.cwd0, Event.chdir env.cwd0] ∧
    Event.print ("Error: Directory not found: " ++ publicDirOf env.scriptDir)
        ∉ (run_server env).events ∧
    finalCwd env.cwd0 (run_server env).events = env.cwd0 ∧
    (run_server env).outcome = Outcome.exited 1 ∧
    (∀ hst : String, ∀ p : Nat, Event.bind hst p ∉ (run_server env).events) := by
  have he : (run_server env).events =
      [Event.print ("Error: " ++ env.chdirErrMsg),
       Event.chdir env.cwd0, Event.chdir env.cwd0] := by
    simp [run_server, hk, os_path_exists]
  have hne : "Error: Directory not found: " ++ publicDirOf env.scriptDir
      ≠ "Error: " ++ env.chdirErrMsg := by
    have hsplit : ("Error: Directory not found: " : String) ++ publicDirOf env.scriptDir
        = "Error: " ++ ("Directory not found: " ++ publicDirOf env.scriptDir) := by
      rw [← String.append_assoc]
      rfl
    rw [hsplit]
    intro h
    exact hm (string_append_left_cancel "Error: " _ _ h).symm
  refine ⟨by rw [hk]; rfl, he, ?_, ?_, ?_, ?_⟩
  · rw [he]
    intro hmem
    simp only [List.mem_cons, List.not_mem_nil, or_false] at hmem
    rcases hmem with h1 | h1 | h1
    · exact hne (Event.print.inj h1)
    · exact Event.noConfusion h1
    · exact Event.noConfusion h1
  · rw [he]; simp [finalCwd]
  · simp [run_server, hk, os_path_exists]
  · rw [he]; intro hst p; simp

/-- Concrete environment: the content root path exists as a regular file. -/
def envFileRoot : Env :=
  { scriptDir := "/srv/app", cwd0 := "/home/user",
    publicDirKind := PathKind.file,
    chdirErrMsg := "[Errno 20] Not a directory: '/srv/app/dry-field-064a/public'",
    bindResult := none, browserOk := true, serveInterrupted := false }

/-- Witness for C9 at `envFileRoot`. -/
theorem C9_exists_check_accepts_file_witness :
    envFileRoot.publicDirKind = PathKind.file ∧
    envFileRoot.chdirErrMsg
        ≠ "Directory not found: " ++ publicDirOf envFileRoot.scriptDir ∧
    (os_path_exists envFileRoot.publicDirKind = true ∧
     (run_server envFileRoot).events =
       [Event.print ("Error: " ++ envFileRoot.chdirErrMsg),
        Event.chdir envFileRoot.cwd0, Event.chdir envFileRoot.cwd0] ∧
     Event.print ("Error: Directory not found: " ++ publicDirOf envFileRoot.scriptDir)
         ∉ (run_server envFileRoot).events ∧
     finalCwd envFileRoot.cwd0 (run_server envFileRoot).events = envFileRoot.cwd0 ∧
     (run_server envFileRoot).outcome = Outcome.exited 1 ∧
     (∀ hst : String, ∀ p : Nat, Event.bind hst p ∉ (run_server envFileRoot).events)) :=
  ⟨rfl, by decide, C9_exists_check_accepts_file envFileRoot rfl (by decide)⟩

/-- C7: whenever the setup reaches the listener creation (the content root
is a directory), the bind is to host `""` — all interfaces — on TCP port
3000, every bind event in the trace has exactly that target, and the
content root both computed and changed into is the fixed subdirectory
`dry-field-064a/public` of the script's own directory. -/
theorem C7_bind_target_and_content_root (env : Env)
    (hk : env.publicDirKind = PathKind.dir) :
    publicDirOf env.scriptDir = env.scriptDir ++ "/dry-field-064a/public" ∧
    Event.chdir (env.scriptDir ++ "/dry-field-064a/public") ∈ (run_server env).events ∧
    Event.bind "" 3000 ∈ (run_server env).events ∧
    (∀ hst : String, ∀ p : Nat,
      Event.bind hst p ∈ (run_server env).events → hst = "" ∧ p = 3000) := by
  have hroot : publicDirOf env.scriptDir = env.scriptDir ++ "/dry-field-064a/public" := by
    show env.scriptDir ++ "/" ++ "dry-field-064a" ++ "/" ++ "public" = _
    rw [String.append_assoc, String.append_assoc, String.append_assoc]
    rfl
  rw [← hroot]
  refine ⟨rfl, ?_, ?_, ?_⟩ <;>
    rcases hbr : env.bindResult with _ | ⟨er, msg⟩ <;>
    rcases hsi : env.serveInterrupted with _ | _ <;>
    simp [run_server, hk, hbr, hsi, os_path_exists, PORT]

/-- Concrete environment: happy path, content root is a directory and the
bind succeeds. -/
def envHappy : Env :=
  { scriptDir := "/srv/app", cwd0 := "/home/user",
    publicDirKind := PathKind.dir, chdirErrMsg := "",
    bindResult := none, browserOk := true, serveInterrupted := false }

/-- Witness for C7 at `envHappy`. -/
theorem C7_bind_target_and_content_root_witness :
    envHappy.publicDirKind = PathKind.dir ∧
    (publicDirOf envHappy.scriptDir = envHappy.scriptDir ++ "/dry-field-064a/public" ∧
     Event.chdir (envHappy.scriptDir ++ "/dry-field-064a/public")
        ∈ (run_server envHappy).events ∧
     Event.bind "" 3000 ∈ (run_server envHappy).events ∧
     (∀ hst : String, ∀ p : Nat,
       Event.bind hst p ∈ (run_server envHappy).events → hst = "" ∧ p = 3000)) :=
  ⟨rfl, C7_bind_target_and_content_root envHappy rfl⟩

/-- C6 counterexample: on a concrete happy-path run the serve loop is
entered, yet no browser-open event carries the URL
`http://localhost:3000/` — the argument passed to `webbrowser.open` is
`http://localhost:3000`, without the trailing slash the claim states. -/
theorem C6_trailing_slash_counterexample :
    (run_server envHappy).outcome = Outcome.runningForever ∧
    Event.openBrowser ("http://localhost:" ++ toString PORT)
        ∈ (run_server envHappy).events ∧
    Event.openBrowser "http://localhost:3000/" ∉ (run_server envHappy).events := by
  refine ⟨rfl, ?_, ?_⟩ <;> decide

/-- C6 amended: on the happy path the browser-open side effect — whose
target is the literal `http://localhost:3000`, no trailing slash — happens
after the listener is created and before the serve loop is entered, and
the boolean result of the browser-open action has no influence on the
run: startup is not aborted. -/
theorem C6_browser_between_bind_and_serve (env : Env)
    (hk : env.publicDirKind = PathKind.dir)
    (hb : env.bindResult = none)
    (hs : env.serveInterrupted = false) :
    (run_server env).events =
      [Event.chdir (publicDirOf env.scriptDir),
       Event.print ("Serving from: " ++ publicDirOf env.scriptDir),
       Event.bind "" PORT,
       Event.print ("Serving at " ++ browserUrl),
       Event.openBrowser "http://localhost:3000",
       Event.serveForever] ∧
    (run_server env).outcome = Outcome.runningForever ∧
    (∀ b : Bool, run_server { env with browserOk := b } = run_server env) := by
  have hurl : browserUrl = "http://localhost:3000" := by decide
  refine ⟨?_, ?_, fun b => rfl⟩ <;> simp [run_server, hk, hb, hs, os_path_exists, hurl]

/-- Witness for the amended C6 at `envHappy`. -/
theorem C6_browser_between_bind_and_serve_witness :
    envHappy.publicDirKind = PathKind.dir ∧
    envHappy.bindResult = none ∧
    envHappy.serveInterrupted = false ∧
    ((run_server envHappy).events =
      [Event.chdir (publicDirOf envHappy.scriptDir),
       Event.print ("Serving from: " ++ publicDirOf envHappy.scriptDir),
       Event.bind "" PORT,
       Event.print ("Serving at " ++ browserUrl),
       Event.openBrowser "http://localhost:3000",
       Event.serveForever] ∧
     (run_server envHappy).outcome = Outcome.runningForever ∧
     (∀ b : Bool, run_server { envHappy with browserOk := b } = run_server envHappy)) :=
  ⟨rfl, rfl, rfl, C6_browser_between_bind_and_serve envHappy rfl rfl rfl⟩

/-- Concrete environment for the C3 counterexample: bind fails with errno
48 while the content root is a valid directory. -/
def envRestoreTwice : Env :=
  { scriptDir := "/srv/app", cwd0 := "/home/user",
    publicDirKind := PathKind.dir, chdirErrMsg := "",
    bindResult := some (some 48, "[Errno 48] Address already in use"),
    browserOk := true, serveInterrupted := false }

/-- C3 counterexample: on the address-in-use exit path the restoring
`os.chdir(original_dir)` is executed twice, not exactly once — once in the
`except` handler and once more in the `finally` block, because the
`SystemExit` raised by `sys.exit(1)` is not caught by `except Exception`
and therefore reaches the `finally`. -/
theorem C3_restore_twice_counterexample :
    (run_server envRestoreTwice).outcome = Outcome.exited 1 ∧
    chdirCalls "/home/user" (run_server envRestoreTwice).events = 2 ∧
    chdirCalls "/home/user" (run_server envRestoreTwice).events ≠ 1 := by
  refine ⟨rfl, ?_, ?_⟩ <;> decide

/-- C3 amended: on every exit path of `run_server` the working directory
ends equal to its pre-invocation value, but the restoring
`os.chdir(original_dir)` is not executed exactly once per exit path: it
runs zero times on the missing-directory path (where the directory was
never changed), twice on the handled-error paths (failed `os.chdir` or
failed bind: once in the `except` handler and once in the `finally`), and
once when the serve loop is torn down by an uncaught interruption. -/
theorem C3_cwd_restored_on_every_exit (env : Env)
    (hd : env.cwd0 ≠ publicDirOf env.scriptDir) :
    ((run_server env).outcome ≠ Outcome.runningForever →
      finalCwd env.cwd0 (run_server env).events = env.cwd0) ∧
    (env.publicDirKind = PathKind.absent →
      chdirCalls env.cwd0 (run_server env).events = 0) ∧
    (env.publicDirKind = PathKind.file →
      chdirCalls env.cwd0 (run_server env).events = 2) ∧
    (∀ r : Option Int × String, env.publicDirKind = PathKind.dir →
      env.bindResult = some r →
      chdirCalls env.cwd0 (run_server env).events = 2) ∧
    (env.publicDirKind = PathKind.dir → env.bindResult = none →
      env.serveInterrupted = true →
      chdirCalls env.cwd0 (run_server env).events = 1) := by
  have hd2 : publicDirOf env.scriptDir ≠ env.cwd0 := Ne.symm hd
  rcases hk : env.publicDirKind with _ | _ | _ <;>
    rcases hbr : env.bindResult with _ | ⟨er, msg⟩ <;>
    rcases hsi : env.serveInterrupted with _ | _ <;>
    refine ⟨?_, ?_, ?_, ?_, ?_⟩ <;>
    simp [run_server, hk, hbr, hsi, os_path_exists, finalCwd, chdirCalls, hd2]

/-- Witness for the amended C3 at `envRestoreTwice`. -/
theorem C3_cwd_restored_on_every_exit_witness :
    envRestoreTwice.cwd0 ≠ publicDirOf envRestoreTwice.scriptDir ∧
    (((run_server envRestoreTwice).outcome ≠ Outcome.runningForever →
        finalCwd envRestoreTwice.cwd0 (run_server envRestoreTwice).events
          = envRestoreTwice.cwd0) ∧
     (envRestoreTwice.publicDirKind = PathKind.absent →
        chdirCalls envRestoreTwice.cwd0 (run_server envRestoreTwice).events = 0) ∧
     (envRestoreTwice.publicDirKind = PathKind.file →
        chdirCalls envRestoreTwice.cwd0 (run_server envRestoreTwice).events = 2) ∧
     (∀ r : Option Int × String, envRestoreTwice.publicDirKind = PathKind.dir →
        envRestoreTwice.bindResult = some r →
        chdirCalls envRestoreTwice.cwd0 (run_server envRestoreTwice).events = 2) ∧
     (envRestoreTwice.publicDirKind = PathKind.dir →
        envRestoreTwice.bindResult = none →
        envRestoreTwice.serveInterrupted = true →
        chdirCalls envRestoreTwice.cwd0 (run_server envRestoreTwice).events = 1)) :=
  ⟨by decide, C3_cwd_restored_on_every_exit envRestoreTwice (by decide)⟩
